import Mathlib

/-!
Shallow embedding of the computer-use action catalog of
`src/tools/computerUse.ts` (provided as `src/unnamed/part_000`).

Each tool's `action` closure is modelled as an explicit state-passing
function.  Browser primitives (`page.mouse.*`, `page.keyboard.*`,
`page.screenshot`, `page.waitForTimeout`) are an external capability: a
`Page` says, per primitive call, whether the call throws (and with which
message).  Every primitive call attempted is appended to a trace, so that
ordering claims (press/release cycles, delay-before-screenshot, key order)
are about the observable call sequence.  `new Date().toISOString()` is
modelled by a clock: a list of timestamp strings, one consumed per capture.
Thrown JavaScript errors are modelled by their extracted message
(`error instanceof Error ? error.message : String(error)`), schema
rejections by a separate validation constructor, since zod rejects the
input before the handler runs.
-/

set_option maxHeartbeats 1000000
set_option maxRecDepth 100000

/-- A browser primitive call, as issued to the external page handle. -/
inductive Prim where
  | screenshot
  | mouseClick (x y : Int) (button : String)
  | mouseDblclick (x y : Int)
  | mouseMove (x y : Int)
  | mouseWheel (dx dy : Int)
  | mouseDown
  | mouseUp
  | keyboardType (text : String) (delay : Option Int)
  | keyboardPress (key : String)
  | waitForTimeout (ms : Int)
deriving DecidableEq, Repr

/-- The external page handle: for each primitive call, either it succeeds
(`none`) or throws an error with the given message (`some msg`); a
successful `screenshot` resolves to `shotData` (the base64 payload). -/
structure Page where
  failsAt : Prim → Option String
  shotData : String

/-- One content part of a tool result: `TextContent` or `ImageContent`. -/
inductive Content where
  | text (s : String)
  | image (data : String) (mimeType : String)
deriving DecidableEq, Repr

/-- A point of a drag path (`{ x: int, y: int }`). -/
structure Point where
  x : Int
  y : Int
deriving DecidableEq, Repr

/-- The ambient context of one invocation: `context.currentSessionId`,
`context.getActivePage()` (`none` models a null page), whether
`context.getServer()` returns an instance, and whether the server's
`notification` call would fail.  The code calls `serverInstance.notification`
without `await` and `notification` is an async method, so a failed emission
surfaces only as a floating rejected promise; accordingly no action below
reads `notifyFails`. -/
structure Ctx where
  currentSessionId : String
  page : Option Page
  hasServer : Bool
  notifyFails : Bool

/-- Observable run state of one invocation: the upcoming wall-clock
timestamp strings (one consumed per `new Date()` call), the trace of
primitive calls attempted so far, the screenshot resource store entries
`(sessionId, name, base64)`, and how many list-changed notifications were
emitted. -/
structure RunState where
  clock : List String
  trace : List Prim
  resources : List (String × String × String)
  notifications : Nat
deriving DecidableEq, Repr

/-- Outcome of one invocation: a zod schema rejection (raised before the
handler's action runs) or a thrown error, each carrying its message. -/
inductive CuError where
  | validation (msg : String)
  | thrown (msg : String)
deriving DecidableEq, Repr

deriving instance DecidableEq for Except

/-- Result of running one action: the final run state together with either
the thrown error or the returned content list. -/
abbrev CuResult := RunState × Except CuError (List Content)

/-- Issue one primitive call to the page: the attempt is recorded on the
trace, then the call either throws or succeeds as `Page.failsAt` says. -/
def callPrim (page : Page) (pr : Prim) (s : RunState) :
    RunState × Except CuError Unit :=
  let s' := { s with trace := s.trace ++ [pr] }
  match page.failsAt pr with
  | some msg => (s', .error (.thrown msg))
  | none => (s', .ok ())

/-- Replacement of every colon by a dash, as in
`toISOString().replace(/:/g, "-")`. -/
def replaceColons (t : String) : String :=
  String.mk (t.data.map (fun c => if c = ':' then '-' else c))

/-- Derived resource name: action-kind prefix, a dash, and the colon-replaced
capture timestamp. -/
def screenshotName (pre t : String) : String :=
  pre ++ "-" ++ replaceColons t

/-- Modelled from the spec: `registerScreenshot` is imported from
`../mcp/resources.js`, a file not among the provided sources; §4.2 of the
spec says `register(sessionId, name, base64Payload)` appends a resource in
insertion order and never overwrites. -/
def registerScreenshot (sessionId name base64 : String)
    (rs : List (String × String × String)) :
    List (String × String × String) :=
  rs ++ [(sessionId, name, base64)]

/-- The shared capture helper `takeAndRegisterScreenshot`: take a screenshot
(this can throw), derive the name from the prefix and the next wall-clock
timestamp, register the resource under `context.currentSessionId`, emit one
list-changed notification when `context.getServer()` is non-null, and return
the two screenshot content parts.  The clock never runs dry in the source
(`new Date()` always yields a value); `headD ""` totalizes that. -/
def takeAndRegisterScreenshot (ctx : Ctx) (page : Page) (pre : String)
    (s : RunState) : CuResult :=
  match callPrim page Prim.screenshot s with
  | (s₁, .error e) => (s₁, .error e)
  | (s₁, .ok ()) =>
    let base64 := page.shotData
    let t := s₁.clock.headD ""
    let name := screenshotName pre t
    let s₂ := { s₁ with
      clock := s₁.clock.tail
      resources := registerScreenshot ctx.currentSessionId name base64 s₁.resources
      notifications :=
        if ctx.hasServer then s₁.notifications + 1 else s₁.notifications }
    (s₂, .ok [Content.text ("Screenshot captured: " ++ name),
              Content.image base64 "image/png"])

/-- The per-action catch clause: a thrown error is re-thrown as
`"Failed to <verb>: <original message>"`.  Only the actions whose source has
a try/catch are routed through this. -/
def wrapFailed (verb : String) (r : CuResult) : CuResult :=
  match r with
  | (s, .error (.thrown msg)) =>
      (s, .error (.thrown ("Failed to " ++ verb ++ ": " ++ msg)))
  | other => other

/-- The error thrown when `context.getActivePage()` resolves to null. -/
def noActivePage : CuError := .thrown "No active page available"

/-- The `cu_screenshot` action: no try/catch in the source, capture only. -/
def cuScreenshotTool (ctx : Ctx) (s : RunState) : CuResult :=
  match ctx.page with
  | none => (s, .error noActivePage)
  | some page => takeAndRegisterScreenshot ctx page "cu-screenshot" s

/-- Body of the `cu_click` action's try block. -/
def cuClickBody (ctx : Ctx) (x y : Int) (button : String)
    (s : RunState) : CuResult :=
  match ctx.page with
  | none => (s, .error noActivePage)
  | some page =>
    match callPrim page (Prim.mouseClick x y button) s with
    | (s₁, .error e) => (s₁, .error e)
    | (s₁, .ok ()) =>
      match takeAndRegisterScreenshot ctx page "cu-click" s₁ with
      | (s₂, .error e) => (s₂, .error e)
      | (s₂, .ok shot) =>
        (s₂, .ok (Content.text ("Clicked at (" ++ toString x ++ ", " ++
          toString y ++ ") with " ++ button) :: shot))

/-- Validation of the click `button` field:
`z.enum(["left","right","middle"]).optional().default("left")`. -/
def parseButton (b : Option String) : Except CuError String :=
  match b with
  | none => .ok "left"
  | some v =>
    if v = "left" ∨ v = "right" ∨ v = "middle" then .ok v
    else .error (.validation "Invalid enum value")

/-- The `cu_click` tool: schema validation, then the try/catch body. -/
def cuClickTool (ctx : Ctx) (x y : Int) (button : Option String)
    (s : RunState) : CuResult :=
  match parseButton button with
  | .error e => (s, .error e)
  | .ok btn => wrapFailed "click" (cuClickBody ctx x y btn s)

/-- Body of the `cu_double_click` action's try block. -/
def cuDoubleClickBody (ctx : Ctx) (x y : Int) (s : RunState) : CuResult :=
  match ctx.page with
  | none => (s, .error noActivePage)
  | some page =>
    match callPrim page (Prim.mouseDblclick x y) s with
    | (s₁, .error e) => (s₁, .error e)
    | (s₁, .ok ()) =>
      match takeAndRegisterScreenshot ctx page "cu-double-click" s₁ with
      | (s₂, .error e) => (s₂, .error e)
      | (s₂, .ok shot) =>
        (s₂, .ok (Content.text ("Double clicked at (" ++ toString x ++ ", " ++
          toString y ++ ")") :: shot))

/-- The `cu_double_click` tool. -/
def cuDoubleClickTool (ctx : Ctx) (x y : Int) (s : RunState) : CuResult :=
  wrapFailed "double click" (cuDoubleClickBody ctx x y s)

/-- Body of the `cu_scroll` action's try block: move, then wheel. -/
def cuScrollBody (ctx : Ctx) (x y sx sy : Int) (s : RunState) : CuResult :=
  match ctx.page with
  | none => (s, .error noActivePage)
  | some page =>
    match callPrim page (Prim.mouseMove x y) s with
    | (s₁, .error e) => (s₁, .error e)
    | (s₁, .ok ()) =>
      match callPrim page (Prim.mouseWheel sx sy) s₁ with
      | (s₂, .error e) => (s₂, .error e)
      | (s₂, .ok ()) =>
        match takeAndRegisterScreenshot ctx page "cu-scroll" s₂ with
        | (s₃, .error e) => (s₃, .error e)
        | (s₃, .ok shot) =>
          (s₃, .ok (Content.text ("Scrolled at (" ++ toString x ++ ", " ++
            toString y ++ ") by (" ++ toString sx ++ ", " ++ toString sy ++
            ")") :: shot))

/-- The `cu_scroll` tool. -/
def cuScrollTool (ctx : Ctx) (x y sx sy : Int) (s : RunState) : CuResult :=
  wrapFailed "scroll" (cuScrollBody ctx x y sx sy s)

/-- Body of the `cu_type` action's try block. -/
def cuTypeBody (ctx : Ctx) (text : String) (delayMs : Option Int)
    (s : RunState) : CuResult :=
  match ctx.page with
  | none => (s, .error noActivePage)
  | some page =>
    match callPrim page (Prim.keyboardType text delayMs) s with
    | (s₁, .error e) => (s₁, .error e)
    | (s₁, .ok ()) =>
      match takeAndRegisterScreenshot ctx page "cu-type" s₁ with
      | (s₂, .error e) => (s₂, .error e)
      | (s₂, .ok shot) =>
        (s₂, .ok (Content.text ("Typed " ++ toString text.length ++
          " characters") :: shot))

/-- The `cu_type` tool. -/
def cuTypeTool (ctx : Ctx) (text : String) (delayMs : Option Int)
    (s : RunState) : CuResult :=
  wrapFailed "type" (cuTypeBody ctx text delayMs s)

/-- Validation of the wait `ms` field: `z.number().int().default(1000)`. -/
def parseWaitMs (ms : Option Int) : Int := ms.getD 1000

/-- The `cu_wait` action: no try/catch in the source; waits, then captures. -/
def cuWaitAction (ctx : Ctx) (ms : Int) (s : RunState) : CuResult :=
  match ctx.page with
  | none => (s, .error noActivePage)
  | some page =>
    match callPrim page (Prim.waitForTimeout ms) s with
    | (s₁, .error e) => (s₁, .error e)
    | (s₁, .ok ()) =>
      match takeAndRegisterScreenshot ctx page "cu-wait" s₁ with
      | (s₂, .error e) => (s₂, .error e)
      | (s₂, .ok shot) =>
        (s₂, .ok (Content.text ("Waited for " ++ toString ms ++ " ms") :: shot))

/-- The `cu_wait` tool: the schema default fills in `ms` before the action. -/
def cuWaitTool (ctx : Ctx) (ms : Option Int) (s : RunState) : CuResult :=
  cuWaitAction ctx (parseWaitMs ms) s

/-- Body of the `cu_move` action's try block. -/
def cuMoveBody (ctx : Ctx) (x y : Int) (s : RunState) : CuResult :=
  match ctx.page with
  | none => (s, .error noActivePage)
  | some page =>
    match callPrim page (Prim.mouseMove x y) s with
    | (s₁, .error e) => (s₁, .error e)
    | (s₁, .ok ()) =>
      match takeAndRegisterScreenshot ctx page "cu-move" s₁ with
      | (s₂, .error e) => (s₂, .error e)
      | (s₂, .ok shot) =>
        (s₂, .ok (Content.text ("Moved mouse to (" ++ toString x ++ ", " ++
          toString y ++ ")") :: shot))

/-- The `cu_move` tool. -/
def cuMoveTool (ctx : Ctx) (x y : Int) (s : RunState) : CuResult :=
  wrapFailed "move" (cuMoveBody ctx x y s)

/-- The `for (const key of keys) await page.keyboard.press(key)` loop. -/
def pressKeys (page : Page) (keys : List String) (s : RunState) :
    RunState × Except CuError Unit :=
  match keys with
  | [] => (s, .ok ())
  | k :: rest =>
    match callPrim page (Prim.keyboardPress k) s with
    | (s₁, .error e) => (s₁, .error e)
    | (s₁, .ok ()) => pressKeys page rest s₁

/-- Validation of the keypress `keys` field: `z.array(z.string()).min(1)`. -/
def parseKeys (keys : List String) : Except CuError (List String) :=
  if 1 ≤ keys.length then .ok keys
  else .error (.validation "Array must contain at least 1 element(s)")

/-- Body of the `cu_keypress` action's try block. -/
def cuKeypressBody (ctx : Ctx) (keys : List String) (s : RunState) : CuResult :=
  match ctx.page with
  | none => (s, .error noActivePage)
  | some page =>
    match pressKeys page keys s with
    | (s₁, .error e) => (s₁, .error e)
    | (s₁, .ok ()) =>
      match takeAndRegisterScreenshot ctx page "cu-keypress" s₁ with
      | (s₂, .error e) => (s₂, .error e)
      | (s₂, .ok shot) =>
        (s₂, .ok (Content.text ("Pressed keys: " ++
          String.intercalate ", " keys) :: shot))

/-- The `cu_keypress` tool: schema validation, then the try/catch body. -/
def cuKeypressTool (ctx : Ctx) (keys : List String) (s : RunState) : CuResult :=
  match parseKeys keys with
  | .error e => (s, .error e)
  | .ok ks => wrapFailed "press keys" (cuKeypressBody ctx ks s)

/-- Validation of the drag `path` field: an array of integer points with
`.min(2)`. -/
def parseDragPath (path : List Point) : Except CuError (List Point) :=
  if 2 ≤ path.length then .ok path
  else .error (.validation "Array must contain at least 2 element(s)")

/-- The `for (const pt of rest) await page.mouse.move(pt.x, pt.y)` loop. -/
def dragMoves (page : Page) (pts : List Point) (s : RunState) :
    RunState × Except CuError Unit :=
  match pts with
  | [] => (s, .ok ())
  | p :: rest =>
    match callPrim page (Prim.mouseMove p.x p.y) s with
    | (s₁, .error e) => (s₁, .error e)
    | (s₁, .ok ()) => dragMoves page rest s₁

/-- Body of the `cu_drag` action's try block, after the destructuring
`const [start, ...rest] = path`: move to the start, press, move through the
rest in order, release, capture.  The schema's `.min(2)` guarantees `rest`
is nonempty, so `rest[rest.length - 1]` is defined; `getLastD` totalizes
the unreachable empty case. -/
def cuDragBody (ctx : Ctx) (start : Point) (rest : List Point)
    (s : RunState) : CuResult :=
  match ctx.page with
  | none => (s, .error noActivePage)
  | some page =>
    match callPrim page (Prim.mouseMove start.x start.y) s with
    | (s₁, .error e) => (s₁, .error e)
    | (s₁, .ok ()) =>
      match callPrim page Prim.mouseDown s₁ with
      | (s₂, .error e) => (s₂, .error e)
      | (s₂, .ok ()) =>
        match dragMoves page rest s₂ with
        | (s₃, .error e) => (s₃, .error e)
        | (s₃, .ok ()) =>
          match callPrim page Prim.mouseUp s₃ with
          | (s₄, .error e) => (s₄, .error e)
          | (s₄, .ok ()) =>
            match takeAndRegisterScreenshot ctx page "cu-drag" s₄ with
            | (s₅, .error e) => (s₅, .error e)
            | (s₅, .ok shot) =>
              (s₅, .ok (Content.text ("Dragged from (" ++
                toString start.x ++ ", " ++ toString start.y ++ ") to (" ++
                toString (rest.getLastD start).x ++ ", " ++
                toString (rest.getLastD start).y ++ ") via " ++
                toString (rest.length + 1) ++ " points") :: shot))

/-- The `cu_drag` tool: schema validation, destructuring, then the
try/catch body. -/
def cuDragTool (ctx : Ctx) (path : List Point) (s : RunState) : CuResult :=
  match parseDragPath path with
  | .error e => (s, .error e)
  | .ok ps =>
    match ps with
    | [] => (s, .error (.validation "Array must contain at least 2 element(s)"))
    | start :: rest => wrapFailed "drag" (cuDragBody ctx start rest s)

/-- A page on which every primitive succeeds. -/
def allOkPage : Page where
  failsAt := fun _ => none
  shotData := "IMG"

/-- A fixed capture timestamp, at millisecond resolution as
`toISOString()` yields. -/
def t0 : String := "2025-01-01T00:00:00.000Z"

/-- A later capture timestamp in the same format. -/
def t1 : String := "2025-01-01T00:00:00.001Z"

/-- A baseline context with an all-succeeding page and a server instance. -/
def ctx0 : Ctx where
  currentSessionId := "sess-1"
  page := some allOkPage
  hasServer := true
  notifyFails := false

/-- A baseline starting run state with two capture timestamps queued. -/
def s0 : RunState where
  clock := [t0, t1]
  trace := []
  resources := []
  notifications := 0

/-- A context whose `getActivePage()` resolves to null. -/
def noPageCtx : Ctx where
  currentSessionId := "sess-1"
  page := none
  hasServer := true
  notifyFails := false

/-- A context with a working page but no registered server instance. -/
def noServerCtx : Ctx where
  currentSessionId := "sess-1"
  page := some allOkPage
  hasServer := false
  notifyFails := false

/-- A substring-containment statement used to phrase "contains verbatim". -/
def containsStr (s sub : String) : Prop :=
  ∃ a b, s = a ++ sub ++ b

example : (cuClickTool ctx0 10 20 none s0).2 =
    .ok [Content.text "Clicked at (10, 20) with left",
         Content.text "Screenshot captured: cu-click-2025-01-01T00-00-00.000Z",
         Content.image "IMG" "image/png"] := by decide

example : (cuScreenshotTool ctx0 s0).2 =
    .ok [Content.text "Screenshot captured: cu-screenshot-2025-01-01T00-00-00.000Z",
         Content.image "IMG" "image/png"] := by decide

theorem wrapFailed_eq_ok {v : String} {r : CuResult} {s' : RunState}
    {cs : List Content} (h : wrapFailed v r = (s', .ok cs)) :
    r = (s', .ok cs) := by
  rcases r with ⟨s₁, x⟩
  cases x with
  | ok l => simp only [wrapFailed] at h; exact h
  | error e =>
    cases e with
    | validation m => simp only [wrapFailed] at h; exact h
    | thrown m => simp [wrapFailed] at h

theorem wrapFailed_thrown {v : String} {r : CuResult} {s' : RunState}
    {m : String} (h : r = (s', .error (.thrown m))) :
    wrapFailed v r = (s', .error (.thrown ("Failed to " ++ v ++ ": " ++ m))) := by
  subst h; simp [wrapFailed]

theorem takeShot_err (ctx : Ctx) (page : Page) (pre : String) (s : RunState)
    (m : String) (h : page.failsAt Prim.screenshot = some m) :
    takeAndRegisterScreenshot ctx page pre s =
      ({ s with trace := s.trace ++ [Prim.screenshot] }, .error (.thrown m)) := by
  simp [takeAndRegisterScreenshot, callPrim, h]

theorem takeShot_ok (ctx : Ctx) (page : Page) (pre : String) (s : RunState)
    (h : page.failsAt Prim.screenshot = none) :
    takeAndRegisterScreenshot ctx page pre s =
      ({ clock := s.clock.tail,
         trace := s.trace ++ [Prim.screenshot],
         resources := registerScreenshot ctx.currentSessionId
           (screenshotName pre (s.clock.headD "")) page.shotData s.resources,
         notifications :=
           if ctx.hasServer then s.notifications + 1 else s.notifications },
       .ok [Content.text ("Screenshot captured: " ++
              screenshotName pre (s.clock.headD "")),
            Content.image page.shotData "image/png"]) := by
  simp [takeAndRegisterScreenshot, callPrim, h]

theorem clickInv {ctx : Ctx} {x y : Int} {b : Option String} {s s' : RunState}
    {cs : List Content} (h : cuClickTool ctx x y b s = (s', .ok cs)) :
    ∃ page btn, ctx.page = some page ∧ parseButton b = .ok btn ∧
      page.failsAt (Prim.mouseClick x y btn) = none ∧
      page.failsAt Prim.screenshot = none ∧
      s' = { clock := s.clock.tail,
             trace := s.trace ++ [Prim.mouseClick x y btn, Prim.screenshot],
             resources := registerScreenshot ctx.currentSessionId
               (screenshotName "cu-click" (s.clock.headD "")) page.shotData
               s.resources,
             notifications :=
               if ctx.hasServer then s.notifications + 1
               else s.notifications } ∧
      cs = [Content.text ("Clicked at (" ++ toString x ++ ", " ++ toString y ++
              ") with " ++ btn),
            Content.text ("Screenshot captured: " ++
              screenshotName "cu-click" (s.clock.headD "")),
            Content.image page.shotData "image/png"] := by
  unfold cuClickTool at h
  cases hb : parseButton b with
  | error e => rw [hb] at h; simp at h
  | ok btn =>
    rw [hb] at h
    have h' := wrapFailed_eq_ok h
    unfold cuClickBody at h'
    cases hp : ctx.page with
    | none => rw [hp] at h'; simp [noActivePage] at h'
    | some page =>
      rw [hp] at h'
      cases hf₁ : page.failsAt (Prim.mouseClick x y btn) with
      | some m => simp [callPrim, hf₁] at h'
      | none =>
        cases hf₂ : page.failsAt Prim.screenshot with
        | some m =>
          simp only [callPrim, hf₁] at h'
          rw [takeShot_err ctx page "cu-click" _ m hf₂] at h'
          simp at h'
        | none =>
          simp only [callPrim, hf₁] at h'
          rw [takeShot_ok ctx page "cu-click" _ hf₂] at h'
          simp only [Prod.mk.injEq, Except.ok.injEq] at h'
          refine ⟨page, btn, rfl, rfl, hf₁, hf₂, ?_, ?_⟩
          · rw [← h'.1]; simp
          · rw [← h'.2]


theorem pressKeys_ok {page : Page} {keys : List String} {s s' : RunState}
    (h : pressKeys page keys s = (s', .ok ())) :
    s' = { s with trace := s.trace ++ keys.map Prim.keyboardPress } := by
  induction keys generalizing s with
  | nil =>
    simp only [pressKeys, Prod.mk.injEq] at h
    simp [← h.1]
  | cons k rest ih =>
    cases hf : page.failsAt (Prim.keyboardPress k) with
    | some m => simp [pressKeys, callPrim, hf] at h
    | none =>
      simp only [pressKeys, callPrim, hf] at h
      have hs := ih h
      subst hs
      simp

theorem dragMoves_ok {page : Page} {pts : List Point} {s s' : RunState}
    (h : dragMoves page pts s = (s', .ok ())) :
    s' = { s with
      trace := s.trace ++ pts.map (fun p => Prim.mouseMove p.x p.y) } := by
  induction pts generalizing s with
  | nil =>
    simp only [dragMoves, Prod.mk.injEq] at h
    simp [← h.1]
  | cons p rest ih =>
    cases hf : page.failsAt (Prim.mouseMove p.x p.y) with
    | some m => simp [dragMoves, callPrim, hf] at h
    | none =>
      simp only [dragMoves, callPrim, hf] at h
      have hs := ih h
      subst hs
      simp

theorem screenshotInv {ctx : Ctx} {s s' : RunState} {cs : List Content}
    (h : cuScreenshotTool ctx s = (s', .ok cs)) :
    ∃ page, ctx.page = some page ∧ page.failsAt Prim.screenshot = none ∧
      s' = { clock := s.clock.tail,
             trace := s.trace ++ [Prim.screenshot],
             resources := registerScreenshot ctx.currentSessionId
               (screenshotName "cu-screenshot" (s.clock.headD ""))
               page.shotData s.resources,
             notifications :=
               if ctx.hasServer then s.notifications + 1
               else s.notifications } ∧
      cs = [Content.text ("Screenshot captured: " ++
              screenshotName "cu-screenshot" (s.clock.headD "")),
            Content.image page.shotData "image/png"] := by
  unfold cuScreenshotTool at h
  cases hp : ctx.page with
  | none => rw [hp] at h; simp [noActivePage] at h
  | some page =>
    rw [hp] at h
    have h₂ : takeAndRegisterScreenshot ctx page "cu-screenshot" s =
        (s', .ok cs) := h
    cases hf : page.failsAt Prim.screenshot with
    | some m => rw [takeShot_err ctx page _ _ m hf] at h₂; simp at h₂
    | none =>
      rw [takeShot_ok ctx page _ _ hf] at h₂
      simp only [Prod.mk.injEq, Except.ok.injEq] at h₂
      exact ⟨page, rfl, hf, h₂.1.symm, h₂.2.symm⟩

theorem doubleClickInv {ctx : Ctx} {x y : Int} {s s' : RunState}
    {cs : List Content} (h : cuDoubleClickTool ctx x y s = (s', .ok cs)) :
    ∃ page, ctx.page = some page ∧
      page.failsAt (Prim.mouseDblclick x y) = none ∧
      page.failsAt Prim.screenshot = none ∧
      s' = { clock := s.clock.tail,
             trace := s.trace ++ [Prim.mouseDblclick x y, Prim.screenshot],
             resources := registerScreenshot ctx.currentSessionId
               (screenshotName "cu-double-click" (s.clock.headD ""))
               page.shotData s.resources,
             notifications :=
               if ctx.hasServer then s.notifications + 1
               else s.notifications } ∧
      cs = [Content.text ("Double clicked at (" ++ toString x ++ ", " ++
              toString y ++ ")"),
            Content.text ("Screenshot captured: " ++
              screenshotName "cu-double-click" (s.clock.headD "")),
            Content.image page.shotData "image/png"] := by
  have h' := wrapFailed_eq_ok h
  unfold cuDoubleClickBody at h'
  cases hp : ctx.page with
  | none => rw [hp] at h'; simp [noActivePage] at h'
  | some page =>
    rw [hp] at h'
    cases hf₁ : page.failsAt (Prim.mouseDblclick x y) with
    | some m => simp [callPrim, hf₁] at h'
    | none =>
      cases hf₂ : page.failsAt Prim.screenshot with
      | some m =>
        simp only [callPrim, hf₁] at h'
        rw [takeShot_err ctx page "cu-double-click" _ m hf₂] at h'
        simp at h'
      | none =>
        simp only [callPrim, hf₁] at h'
        rw [takeShot_ok ctx page "cu-double-click" _ hf₂] at h'
        simp only [Prod.mk.injEq, Except.ok.injEq] at h'
        refine ⟨page, rfl, hf₁, hf₂, ?_, ?_⟩
        · rw [← h'.1]; simp
        · rw [← h'.2]

theorem moveInv {ctx : Ctx} {x y : Int} {s s' : RunState}
    {cs : List Content} (h : cuMoveTool ctx x y s = (s', .ok cs)) :
    ∃ page, ctx.page = some page ∧
      page.failsAt (Prim.mouseMove x y) = none ∧
      page.failsAt Prim.screenshot = none ∧
      s' = { clock := s.clock.tail,
             trace := s.trace ++ [Prim.mouseMove x y, Prim.screenshot],
             resources := registerScreenshot ctx.currentSessionId
               (screenshotName "cu-move" (s.clock.headD ""))
               page.shotData s.resources,
             notifications :=
               if ctx.hasServer then s.notifications + 1
               else s.notifications } ∧
      cs = [Content.text ("Moved mouse to (" ++ toString x ++ ", " ++
              toString y ++ ")"),
            Content.text ("Screenshot captured: " ++
              screenshotName "cu-move" (s.clock.headD "")),
            Content.image page.shotData "image/png"] := by
  have h' := wrapFailed_eq_ok h
  unfold cuMoveBody at h'
  cases hp : ctx.page with
  | none => rw [hp] at h'; simp [noActivePage] at h'
  | some page =>
    rw [hp] at h'
    cases hf₁ : page.failsAt (Prim.mouseMove x y) with
    | some m => simp [callPrim, hf₁] at h'
    | none =>
      cases hf₂ : page.failsAt Prim.screenshot with
      | some m =>
        simp only [callPrim, hf₁] at h'
        rw [takeShot_err ctx page "cu-move" _ m hf₂] at h'
        simp at h'
      | none =>
        simp only [callPrim, hf₁] at h'
        rw [takeShot_ok ctx page "cu-move" _ hf₂] at h'
        simp only [Prod.mk.injEq, Except.ok.injEq] at h'
        refine ⟨page, rfl, hf₁, hf₂, ?_, ?_⟩
        · rw [← h'.1]; simp
        · rw [← h'.2]

theorem typeInv {ctx : Ctx} {text : String} {delayMs : Option Int}
    {s s' : RunState} {cs : List Content}
    (h : cuTypeTool ctx text delayMs s = (s', .ok cs)) :
    ∃ page, ctx.page = some page ∧
      page.failsAt (Prim.keyboardType text delayMs) = none ∧
      page.failsAt Prim.screenshot = none ∧
      s' = { clock := s.clock.tail,
             trace := s.trace ++ [Prim.keyboardType text delayMs,
               Prim.screenshot],
             resources := registerScreenshot ctx.currentSessionId
               (screenshotName "cu-type" (s.clock.headD ""))
               page.shotData s.resources,
             notifications :=
               if ctx.hasServer then s.notifications + 1
               else s.notifications } ∧
      cs = [Content.text ("Typed " ++ toString text.length ++ " characters"),
            Content.text ("Screenshot captured: " ++
              screenshotName "cu-type" (s.clock.headD "")),
            Content.image page.shotData "image/png"] := by
  have h' := wrapFailed_eq_ok h
  unfold cuTypeBody at h'
  cases hp : ctx.page with
  | none => rw [hp] at h'; simp [noActivePage] at h'
  | some page =>
    rw [hp] at h'
    cases hf₁ : page.failsAt (Prim.keyboardType text delayMs) with
    | some m => simp [callPrim, hf₁] at h'
    | none =>
      cases hf₂ : page.failsAt Prim.screenshot with
      | some m =>
        simp only [callPrim, hf₁] at h'
        rw [takeShot_err ctx page "cu-type" _ m hf₂] at h'
        simp at h'
      | none =>
        simp only [callPrim, hf₁] at h'
        rw [takeShot_ok ctx page "cu-type" _ hf₂] at h'
        simp only [Prod.mk.injEq, Except.ok.injEq] at h'
        refine ⟨page, rfl, hf₁, hf₂, ?_, ?_⟩
        · rw [← h'.1]; simp
        · rw [← h'.2]

theorem scrollInv {ctx : Ctx} {x y sx sy : Int} {s s' : RunState}
    {cs : List Content} (h : cuScrollTool ctx x y sx sy s = (s', .ok cs)) :
    ∃ page, ctx.page = some page ∧
      page.failsAt (Prim.mouseMove x y) = none ∧
      page.failsAt (Prim.mouseWheel sx sy) = none ∧
      page.failsAt Prim.screenshot = none ∧
      s' = { clock := s.clock.tail,
             trace := s.trace ++ [Prim.mouseMove x y, Prim.mouseWheel sx sy,
               Prim.screenshot],
             resources := registerScreenshot ctx.currentSessionId
               (screenshotName "cu-scroll" (s.clock.headD ""))
               page.shotData s.resources,
             notifications :=
               if ctx.hasServer then s.notifications + 1
               else s.notifications } ∧
      cs = [Content.text ("Scrolled at (" ++ toString x ++ ", " ++
              toString y ++ ") by (" ++ toString sx ++ ", " ++ toString sy ++
              ")"),
            Content.text ("Screenshot captured: " ++
              screenshotName "cu-scroll" (s.clock.headD "")),
            Content.image page.shotData "image/png"] := by
  have h' := wrapFailed_eq_ok h
  unfold cuScrollBody at h'
  cases hp : ctx.page with
  | none => rw [hp] at h'; simp [noActivePage] at h'
  | some page =>
    rw [hp] at h'
    cases hf₁ : page.failsAt (Prim.mouseMove x y) with
    | some m => simp [callPrim, hf₁] at h'
    | none =>
      cases hf₂ : page.failsAt (Prim.mouseWheel sx sy) with
      | some m => simp [callPrim, hf₁, hf₂] at h'
      | none =>
        cases hf₃ : page.failsAt Prim.screenshot with
        | some m =>
          simp only [callPrim, hf₁, hf₂] at h'
          rw [takeShot_err ctx page "cu-scroll" _ m hf₃] at h'
          simp at h'
        | none =>
          simp only [callPrim, hf₁, hf₂] at h'
          rw [takeShot_ok ctx page "cu-scroll" _ hf₃] at h'
          simp only [Prod.mk.injEq, Except.ok.injEq] at h'
          refine ⟨page, rfl, hf₁, hf₂, hf₃, ?_, ?_⟩
          · rw [← h'.1]; simp
          · rw [← h'.2]

theorem waitInv {ctx : Ctx} {ms : Option Int} {s s' : RunState}
    {cs : List Content} (h : cuWaitTool ctx ms s = (s', .ok cs)) :
    ∃ page, ctx.page = some page ∧
      page.failsAt (Prim.waitForTimeout (parseWaitMs ms)) = none ∧
      page.failsAt Prim.screenshot = none ∧
      s' = { clock := s.clock.tail,
             trace := s.trace ++ [Prim.waitForTimeout (parseWaitMs ms),
               Prim.screenshot],
             resources := registerScreenshot ctx.currentSessionId
               (screenshotName "cu-wait" (s.clock.headD ""))
               page.shotData s.resources,
             notifications :=
               if ctx.hasServer then s.notifications + 1
               else s.notifications } ∧
      cs = [Content.text ("Waited for " ++ toString (parseWaitMs ms) ++ " ms"),
            Content.text ("Screenshot captured: " ++
              screenshotName "cu-wait" (s.clock.headD "")),
            Content.image page.shotData "image/png"] := by
  unfold cuWaitTool cuWaitAction at h
  cases hp : ctx.page with
  | none => rw [hp] at h; simp [noActivePage] at h
  | some page =>
    rw [hp] at h
    cases hf₁ : page.failsAt (Prim.waitForTimeout (parseWaitMs ms)) with
    | some m => simp [callPrim, hf₁] at h
    | none =>
      cases hf₂ : page.failsAt Prim.screenshot with
      | some m =>
        simp only [callPrim, hf₁] at h
        rw [takeShot_err ctx page "cu-wait" _ m hf₂] at h
        simp at h
      | none =>
        simp only [callPrim, hf₁] at h
        rw [takeShot_ok ctx page "cu-wait" _ hf₂] at h
        simp only [Prod.mk.injEq, Except.ok.injEq] at h
        refine ⟨page, rfl, hf₁, hf₂, ?_, ?_⟩
        · rw [← h.1]; simp
        · rw [← h.2]

theorem keypressInv {ctx : Ctx} {keys : List String} {s s' : RunState}
    {cs : List Content} (h : cuKeypressTool ctx keys s = (s', .ok cs)) :
    ∃ page, ctx.page = some page ∧ 1 ≤ keys.length ∧
      page.failsAt Prim.screenshot = none ∧
      s' = { clock := s.clock.tail,
             trace := s.trace ++ keys.map Prim.keyboardPress ++
               [Prim.screenshot],
             resources := registerScreenshot ctx.currentSessionId
               (screenshotName "cu-keypress" (s.clock.headD ""))
               page.shotData s.resources,
             notifications :=
               if ctx.hasServer then s.notifications + 1
               else s.notifications } ∧
      cs = [Content.text ("Pressed keys: " ++ String.intercalate ", " keys),
            Content.text ("Screenshot captured: " ++
              screenshotName "cu-keypress" (s.clock.headD "")),
            Content.image page.shotData "image/png"] := by
  unfold cuKeypressTool at h
  cases hk : parseKeys keys with
  | error e => rw [hk] at h; simp at h
  | ok ks =>
    rw [hk] at h
    have hks : ks = keys ∧ 1 ≤ keys.length := by
      unfold parseKeys at hk
      by_cases hl : 1 ≤ keys.length
      · simp [hl] at hk; exact ⟨hk.symm, hl⟩
      · simp [hl] at hk
    rcases hks with ⟨rfl, hlen⟩
    have h' := wrapFailed_eq_ok h
    unfold cuKeypressBody at h'
    cases hp : ctx.page with
    | none => rw [hp] at h'; simp [noActivePage] at h'
    | some page =>
      rw [hp] at h'
      rcases hpk : pressKeys page ks s with ⟨s₁, rk⟩
      cases rk with
      | error e => simp [hpk] at h'
      | ok u =>
        cases u
        simp only [hpk] at h'
        have hs₁ := pressKeys_ok hpk
        subst hs₁
        cases hf₂ : page.failsAt Prim.screenshot with
        | some m =>
          rw [takeShot_err ctx page "cu-keypress" _ m hf₂] at h'
          simp at h'
        | none =>
          rw [takeShot_ok ctx page "cu-keypress" _ hf₂] at h'
          simp only [Prod.mk.injEq, Except.ok.injEq] at h'
          refine ⟨page, rfl, hlen, hf₂, ?_, ?_⟩
          · rw [← h'.1]
          · rw [← h'.2]

theorem dragInv {ctx : Ctx} {start p₂ : Point} {rest : List Point}
    {s s' : RunState} {cs : List Content}
    (h : cuDragTool ctx (start :: p₂ :: rest) s = (s', .ok cs)) :
    ∃ page, ctx.page = some page ∧
      page.failsAt (Prim.mouseMove start.x start.y) = none ∧
      page.failsAt Prim.mouseDown = none ∧
      page.failsAt Prim.mouseUp = none ∧
      page.failsAt Prim.screenshot = none ∧
      s' = { clock := s.clock.tail,
             trace := s.trace ++
               [Prim.mouseMove start.x start.y, Prim.mouseDown] ++
               (p₂ :: rest).map (fun p => Prim.mouseMove p.x p.y) ++
               [Prim.mouseUp, Prim.screenshot],
             resources := registerScreenshot ctx.currentSessionId
               (screenshotName "cu-drag" (s.clock.headD ""))
               page.shotData s.resources,
             notifications :=
               if ctx.hasServer then s.notifications + 1
               else s.notifications } ∧
      cs = [Content.text ("Dragged from (" ++ toString start.x ++ ", " ++
              toString start.y ++ ") to (" ++
              toString ((p₂ :: rest).getLastD start).x ++ ", " ++
              toString ((p₂ :: rest).getLastD start).y ++ ") via " ++
              toString (rest.length + 1 + 1) ++ " points"),
            Content.text ("Screenshot captured: " ++
              screenshotName "cu-drag" (s.clock.headD "")),
            Content.image page.shotData "image/png"] := by
  unfold cuDragTool at h
  have hparse : parseDragPath (start :: p₂ :: rest) = .ok (start :: p₂ :: rest) := by
    unfold parseDragPath
    simp [Nat.le_add_left]
  rw [hparse] at h
  have h' := wrapFailed_eq_ok h
  unfold cuDragBody at h'
  cases hp : ctx.page with
  | none => rw [hp] at h'; simp [noActivePage] at h'
  | some page =>
    rw [hp] at h'
    cases hf₁ : page.failsAt (Prim.mouseMove start.x start.y) with
    | some m => simp [callPrim, hf₁] at h'
    | none =>
      cases hf₂ : page.failsAt Prim.mouseDown with
      | some m => simp [callPrim, hf₁, hf₂] at h'
      | none =>
        simp only [callPrim, hf₁, hf₂] at h'
        rcases hdm : dragMoves page (p₂ :: rest) _ with ⟨s₃, rd⟩
        rw [hdm] at h'
        cases rd with
        | error e => simp at h'
        | ok u =>
          cases u
          have hs₃ := dragMoves_ok hdm
          subst hs₃
          cases hf₃ : page.failsAt Prim.mouseUp with
          | some m => simp [callPrim, hf₃] at h'
          | none =>
            simp only [callPrim, hf₃] at h'
            cases hf₄ : page.failsAt Prim.screenshot with
            | some m =>
              rw [takeShot_err ctx page "cu-drag" _ m hf₄] at h'
              simp at h'
            | none =>
              rw [takeShot_ok ctx page "cu-drag" _ hf₄] at h'
              simp only [Prod.mk.injEq, Except.ok.injEq] at h'
              refine ⟨page, rfl, hf₁, hf₂, hf₃, hf₄, ?_, ?_⟩
              · rw [← h'.1]; simp
              · rw [← h'.2]; simp

/-- A page on which only `waitForTimeout` throws. -/
def failWaitPage : Page where
  failsAt := fun pr =>
    match pr with
    | Prim.waitForTimeout _ => some "boom"
    | _ => none
  shotData := "IMG"

/-- A context whose page fails on `waitForTimeout`. -/
def failWaitCtx : Ctx where
  currentSessionId := "sess-1"
  page := some failWaitPage
  hasServer := true
  notifyFails := false

/-- A page on which only `keyboard.type` throws. -/
def failTypePage : Page where
  failsAt := fun pr =>
    match pr with
    | Prim.keyboardType _ _ => some "handle missing"
    | _ => none
  shotData := "IMG"

/-- A context whose page fails on `keyboard.type`. -/
def failTypeCtx : Ctx where
  currentSessionId := "sess-1"
  page := some failTypePage
  hasServer := true
  notifyFails := false

/-- A page on which only the screenshot capture throws. -/
def failShotPage : Page where
  failsAt := fun pr =>
    match pr with
    | Prim.screenshot => some "shot failed"
    | _ => none
  shotData := "IMG"

/-- A context whose page fails on screenshot capture. -/
def failShotCtx : Ctx where
  currentSessionId := "sess-1"
  page := some failShotPage
  hasServer := true
  notifyFails := false

theorem wrapFailed_eq_thrown {v : String} {r : CuResult} {s' : RunState}
    {e : String} (h : wrapFailed v r = (s', .error (.thrown e))) :
    ∃ m, r = (s', .error (.thrown m)) ∧
      e = "Failed to " ++ v ++ ": " ++ m := by
  rcases r with ⟨s₁, x⟩
  cases x with
  | ok l => simp [wrapFailed] at h
  | error e' =>
    cases e' with
    | validation m =>
      simp only [wrapFailed] at h
      simp at h
    | thrown m =>
      simp only [wrapFailed] at h
      simp only [Prod.mk.injEq, Except.error.injEq, CuError.thrown.injEq] at h
      exact ⟨m, by rw [h.1], h.2.symm⟩

theorem parseButton_error {b : Option String} {e : CuError}
    (h : parseButton b = .error e) : e = .validation "Invalid enum value" := by
  cases b with
  | none => simp [parseButton] at h
  | some v =>
    have h' : (if v = "left" ∨ v = "right" ∨ v = "middle" then
        (Except.ok v : Except CuError String)
      else .error (.validation "Invalid enum value")) = .error e := h
    by_cases hc : v = "left" ∨ v = "right" ∨ v = "middle"
    · rw [if_pos hc] at h'
      exact Except.noConfusion h'
    · rw [if_neg hc] at h'
      injection h' with h''
      exact h''.symm

theorem parseKeys_error {keys : List String} {e : CuError}
    (h : parseKeys keys = .error e) :
    e = .validation "Array must contain at least 1 element(s)" := by
  unfold parseKeys at h
  by_cases hl : 1 ≤ keys.length
  · rw [if_pos hl] at h
    exact Except.noConfusion h
  · rw [if_neg hl] at h
    injection h with h''
    exact h''.symm

theorem parseKeys_ok_eq {keys ks : List String}
    (h : parseKeys keys = .ok ks) : ks = keys := by
  unfold parseKeys at h
  by_cases hl : 1 ≤ keys.length
  · rw [if_pos hl] at h
    injection h with h''
    exact h''.symm
  · rw [if_neg hl] at h
    exact Except.noConfusion h

theorem parseDragPath_error {path : List Point} {e : CuError}
    (h : parseDragPath path = .error e) :
    e = .validation "Array must contain at least 2 element(s)" := by
  unfold parseDragPath at h
  by_cases hl : 2 ≤ path.length
  · rw [if_pos hl] at h
    exact Except.noConfusion h
  · rw [if_neg hl] at h
    injection h with h''
    exact h''.symm

theorem parseDragPath_ok_eq {path ps : List Point}
    (h : parseDragPath path = .ok ps) : ps = path := by
  unfold parseDragPath at h
  by_cases hl : 2 ≤ path.length
  · rw [if_pos hl] at h
    injection h with h''
    exact h''.symm
  · rw [if_neg hl] at h
    exact Except.noConfusion h

/-- C1 (amended): for the seven actions click, double-click, scroll, type,
move, keypress and drag — whose handlers have a try/catch — every error
thrown anywhere inside the try block (any primitive of the sequence,
including scroll's wheel step and drag's press/move/release steps, or the
screenshot capture/registration) is re-thrown as exactly
`"Failed to <action-verb>: <original message>"` (keypress's verb reads
"press keys"), and conversely every thrown error these seven actions surface
is such a wrapped try-block error; the screenshot and wait handlers have no
try/catch and propagate the original error unchanged, both for their
primitive step and for the capture. -/
theorem C1_amended :
    (∀ ctx x y b btn s s' m, parseButton b = .ok btn →
      cuClickBody ctx x y btn s = (s', .error (.thrown m)) →
      cuClickTool ctx x y b s =
        (s', .error (.thrown ("Failed to click: " ++ m)))) ∧
    (∀ ctx x y b s s' e,
      cuClickTool ctx x y b s = (s', .error (.thrown e)) →
      ∃ btn m, parseButton b = .ok btn ∧
        cuClickBody ctx x y btn s = (s', .error (.thrown m)) ∧
        e = "Failed to click: " ++ m) ∧
    (∀ ctx x y s s' m,
      cuDoubleClickBody ctx x y s = (s', .error (.thrown m)) →
      cuDoubleClickTool ctx x y s =
        (s', .error (.thrown ("Failed to double click: " ++ m)))) ∧
    (∀ ctx x y s s' e,
      cuDoubleClickTool ctx x y s = (s', .error (.thrown e)) →
      ∃ m, cuDoubleClickBody ctx x y s = (s', .error (.thrown m)) ∧
        e = "Failed to double click: " ++ m) ∧
    (∀ ctx x y sx sy s s' m,
      cuScrollBody ctx x y sx sy s = (s', .error (.thrown m)) →
      cuScrollTool ctx x y sx sy s =
        (s', .error (.thrown ("Failed to scroll: " ++ m)))) ∧
    (∀ ctx x y sx sy s s' e,
      cuScrollTool ctx x y sx sy s = (s', .error (.thrown e)) →
      ∃ m, cuScrollBody ctx x y sx sy s = (s', .error (.thrown m)) ∧
        e = "Failed to scroll: " ++ m) ∧
    (∀ ctx text d s s' m,
      cuTypeBody ctx text d s = (s', .error (.thrown m)) →
      cuTypeTool ctx text d s =
        (s', .error (.thrown ("Failed to type: " ++ m)))) ∧
    (∀ ctx text d s s' e,
      cuTypeTool ctx text d s = (s', .error (.thrown e)) →
      ∃ m, cuTypeBody ctx text d s = (s', .error (.thrown m)) ∧
        e = "Failed to type: " ++ m) ∧
    (∀ ctx x y s s' m,
      cuMoveBody ctx x y s = (s', .error (.thrown m)) →
      cuMoveTool ctx x y s =
        (s', .error (.thrown ("Failed to move: " ++ m)))) ∧
    (∀ ctx x y s s' e,
      cuMoveTool ctx x y s = (s', .error (.thrown e)) →
      ∃ m, cuMoveBody ctx x y s = (s', .error (.thrown m)) ∧
        e = "Failed to move: " ++ m) ∧
    (∀ ctx keys s s' m, 1 ≤ keys.length →
      cuKeypressBody ctx keys s = (s', .error (.thrown m)) →
      cuKeypressTool ctx keys s =
        (s', .error (.thrown ("Failed to press keys: " ++ m)))) ∧
    (∀ ctx keys s s' e,
      cuKeypressTool ctx keys s = (s', .error (.thrown e)) →
      ∃ m, cuKeypressBody ctx keys s = (s', .error (.thrown m)) ∧
        e = "Failed to press keys: " ++ m) ∧
    (∀ ctx start p₂ rest s s' m,
      cuDragBody ctx start (p₂ :: rest) s = (s', .error (.thrown m)) →
      cuDragTool ctx (start :: p₂ :: rest) s =
        (s', .error (.thrown ("Failed to drag: " ++ m)))) ∧
    (∀ ctx path s s' e,
      cuDragTool ctx path s = (s', .error (.thrown e)) →
      ∃ start rest m, path = start :: rest ∧
        cuDragBody ctx start rest s = (s', .error (.thrown m)) ∧
        e = "Failed to drag: " ++ m) ∧
    (∀ ctx page s m, ctx.page = some page →
      page.failsAt Prim.screenshot = some m →
      cuScreenshotTool ctx s =
        ({ s with trace := s.trace ++ [Prim.screenshot] },
         .error (.thrown m))) ∧
    (∀ ctx page ms s m, ctx.page = some page →
      page.failsAt (Prim.waitForTimeout (parseWaitMs ms)) = some m →
      cuWaitTool ctx ms s =
        ({ s with
            trace := s.trace ++ [Prim.waitForTimeout (parseWaitMs ms)] },
         .error (.thrown m))) ∧
    (∀ ctx page ms s m, ctx.page = some page →
      page.failsAt (Prim.waitForTimeout (parseWaitMs ms)) = none →
      page.failsAt Prim.screenshot = some m →
      cuWaitTool ctx ms s =
        ({ s with trace := s.trace ++
            [Prim.waitForTimeout (parseWaitMs ms), Prim.screenshot] },
         .error (.thrown m))) := by
  refine ⟨?_, ?_, ?_, ?_, ?_, ?_, ?_, ?_, ?_, ?_, ?_, ?_, ?_, ?_, ?_, ?_, ?_⟩
  · intro ctx x y b btn s s' m hb hbody
    unfold cuClickTool
    rw [hb]
    exact wrapFailed_thrown hbody
  · intro ctx x y b s s' e h
    unfold cuClickTool at h
    cases hb : parseButton b with
    | error ev =>
      rw [hb] at h
      have hv := parseButton_error hb
      subst hv
      simp at h
    | ok btn =>
      rw [hb] at h
      obtain ⟨m, hbody, he⟩ := wrapFailed_eq_thrown h
      exact ⟨btn, m, rfl, hbody, he⟩
  · intro ctx x y s s' m hbody
    unfold cuDoubleClickTool
    exact wrapFailed_thrown hbody
  · intro ctx x y s s' e h
    unfold cuDoubleClickTool at h
    obtain ⟨m, hbody, he⟩ := wrapFailed_eq_thrown h
    exact ⟨m, hbody, he⟩
  · intro ctx x y sx sy s s' m hbody
    unfold cuScrollTool
    exact wrapFailed_thrown hbody
  · intro ctx x y sx sy s s' e h
    unfold cuScrollTool at h
    obtain ⟨m, hbody, he⟩ := wrapFailed_eq_thrown h
    exact ⟨m, hbody, he⟩
  · intro ctx text d s s' m hbody
    unfold cuTypeTool
    exact wrapFailed_thrown hbody
  · intro ctx text d s s' e h
    unfold cuTypeTool at h
    obtain ⟨m, hbody, he⟩ := wrapFailed_eq_thrown h
    exact ⟨m, hbody, he⟩
  · intro ctx x y s s' m hbody
    unfold cuMoveTool
    exact wrapFailed_thrown hbody
  · intro ctx x y s s' e h
    unfold cuMoveTool at h
    obtain ⟨m, hbody, he⟩ := wrapFailed_eq_thrown h
    exact ⟨m, hbody, he⟩
  · intro ctx keys s s' m hl hbody
    unfold cuKeypressTool
    have hparse : parseKeys keys = .ok keys := by
      unfold parseKeys
      rw [if_pos hl]
    rw [hparse]
    exact wrapFailed_thrown hbody
  · intro ctx keys s s' e h
    unfold cuKeypressTool at h
    cases hk : parseKeys keys with
    | error ev =>
      rw [hk] at h
      have hv := parseKeys_error hk
      subst hv
      simp at h
    | ok ks =>
      rw [hk] at h
      have hks := parseKeys_ok_eq hk
      subst hks
      obtain ⟨m, hbody, he⟩ := wrapFailed_eq_thrown h
      exact ⟨m, hbody, he⟩
  · intro ctx start p₂ rest s s' m hbody
    unfold cuDragTool
    have hparse : parseDragPath (start :: p₂ :: rest) =
        .ok (start :: p₂ :: rest) := by
      unfold parseDragPath
      simp [Nat.le_add_left]
    rw [hparse]
    exact wrapFailed_thrown hbody
  · intro ctx path s s' e h
    unfold cuDragTool at h
    cases hk : parseDragPath path with
    | error ev =>
      rw [hk] at h
      have hv := parseDragPath_error hk
      subst hv
      simp at h
    | ok ps =>
      rw [hk] at h
      have hps := parseDragPath_ok_eq hk
      subst hps
      cases ps with
      | nil => simp at h
      | cons start rest =>
        have h' : wrapFailed "drag" (cuDragBody ctx start rest s) =
            (s', .error (.thrown e)) := h
        obtain ⟨m, hbody, he⟩ := wrapFailed_eq_thrown h'
        exact ⟨start, rest, m, rfl, hbody, he⟩
  · intro ctx page s m hp hf
    unfold cuScreenshotTool
    rw [hp]
    exact takeShot_err ctx page "cu-screenshot" s m hf
  · intro ctx page ms s m hp hf
    unfold cuWaitTool cuWaitAction
    rw [hp]
    simp only [callPrim, hf]
  · intro ctx page ms s m hp hf₁ hf₂
    unfold cuWaitTool cuWaitAction
    rw [hp]
    simp only [callPrim, hf₁]
    rw [takeShot_err ctx page "cu-wait" _ m hf₂]
    simp only [List.append_assoc]
    rfl

/-- C1 (counterexample): the `wait` action has no try/catch, so a primitive
failure in `waitForTimeout` surfaces with its original message `"boom"`, not
as `"Failed to wait: boom"`. -/
theorem C1_counterexample :
    (cuWaitTool failWaitCtx (some 5) s0).2 = .error (.thrown "boom") ∧
    "boom" ≠ "Failed to wait: boom" ∧
    List.isPrefixOf "Failed to wait: ".data "boom".data = false := by decide

/-- C1 (witness): a primitive failure during `type` yields exactly
`"Failed to type: handle missing"`, and a capture failure inside the
screenshot handler propagates its original message unchanged. -/
theorem C1_witness :
    cuTypeTool failTypeCtx "hi" none s0 =
      ({ s0 with trace := s0.trace ++ [Prim.keyboardType "hi" none] },
       .error (.thrown ("Failed to type: " ++ "handle missing"))) ∧
    cuScreenshotTool failShotCtx s0 =
      ({ s0 with trace := s0.trace ++ [Prim.screenshot] },
       .error (.thrown "shot failed")) :=
  ⟨C1_amended.2.2.2.2.2.2.1 failTypeCtx "hi" none s0
     { s0 with trace := s0.trace ++ [Prim.keyboardType "hi" none] }
     "handle missing" (by decide),
   C1_amended.2.2.2.2.2.2.2.2.2.2.2.2.2.2.1 failShotCtx failShotPage s0
     "shot failed" rfl rfl⟩

/-- C2 (amended): whenever `getActivePage()` resolves to null, every action
fails before any primitive invocation, screenshot capture or resource
registration (the run state is returned unchanged).  The `screenshot` and
`wait` actions surface the bare error `"No active page available"`; the
seven try/catch actions surface it re-wrapped as
`"Failed to <verb>: No active page available"`. -/
theorem C2_amended : ∀ ctx s, ctx.page = none →
    (cuScreenshotTool ctx s = (s, .error (.thrown "No active page available"))) ∧
    (∀ ms, cuWaitTool ctx ms s =
      (s, .error (.thrown "No active page available"))) ∧
    (∀ x y b btn, parseButton b = .ok btn → cuClickTool ctx x y b s =
      (s, .error (.thrown "Failed to click: No active page available"))) ∧
    (∀ x y, cuDoubleClickTool ctx x y s =
      (s, .error (.thrown "Failed to double click: No active page available"))) ∧
    (∀ x y sx sy, cuScrollTool ctx x y sx sy s =
      (s, .error (.thrown "Failed to scroll: No active page available"))) ∧
    (∀ text d, cuTypeTool ctx text d s =
      (s, .error (.thrown "Failed to type: No active page available"))) ∧
    (∀ x y, cuMoveTool ctx x y s =
      (s, .error (.thrown "Failed to move: No active page available"))) ∧
    (∀ k ks, cuKeypressTool ctx (k :: ks) s =
      (s, .error (.thrown "Failed to press keys: No active page available"))) ∧
    (∀ start p₂ rest, cuDragTool ctx (start :: p₂ :: rest) s =
      (s, .error (.thrown "Failed to drag: No active page available"))) := by
  intro ctx s hp
  refine ⟨?_, ?_, ?_, ?_, ?_, ?_, ?_, ?_, ?_⟩
  · unfold cuScreenshotTool; rw [hp]; rfl
  · intro ms; unfold cuWaitTool cuWaitAction; rw [hp]; rfl
  · intro x y b btn hb
    unfold cuClickTool; rw [hb]; unfold cuClickBody; rw [hp]
    simp only [wrapFailed, noActivePage]; rfl
  · intro x y
    unfold cuDoubleClickTool cuDoubleClickBody; rw [hp]
    simp only [wrapFailed, noActivePage]; rfl
  · intro x y sx sy
    unfold cuScrollTool cuScrollBody; rw [hp]
    simp only [wrapFailed, noActivePage]; rfl
  · intro text d
    unfold cuTypeTool cuTypeBody; rw [hp]
    simp only [wrapFailed, noActivePage]; rfl
  · intro x y
    unfold cuMoveTool cuMoveBody; rw [hp]
    simp only [wrapFailed, noActivePage]; rfl
  · intro k ks
    unfold cuKeypressTool
    have hparse : parseKeys (k :: ks) = .ok (k :: ks) := by
      unfold parseKeys; simp
    rw [hparse]
    unfold cuKeypressBody; rw [hp]
    simp only [wrapFailed, noActivePage]; rfl
  · intro start p₂ rest
    unfold cuDragTool
    have hparse : parseDragPath (start :: p₂ :: rest) =
        .ok (start :: p₂ :: rest) := by
      unfold parseDragPath; simp [Nat.le_add_left]
    rw [hparse]
    unfold cuDragBody; rw [hp]
    simp only [wrapFailed, noActivePage]; rfl

/-- C2 (counterexample): with no active page, `click` does fail fast with no
side effects, but the surfaced error is `"Failed to click: No active page
available"` — the same `"Failed to <verb>: ..."` shape as a primitive
failure — not a distinct bare no-session error. -/
theorem C2_counterexample :
    cuClickTool noPageCtx 1 2 none s0 =
      (s0, .error (.thrown "Failed to click: No active page available")) ∧
    CuError.thrown "Failed to click: No active page available" ≠
      noActivePage ∧
    List.isPrefixOf "Failed to click: ".data
      "Failed to click: No active page available".data = true := by decide

/-- C2 (witness): the screenshot action at a concrete no-page context fails
with the bare no-session error and an unchanged state. -/
theorem C2_witness :
    cuScreenshotTool noPageCtx s0 =
      (s0, .error (.thrown "No active page available")) :=
  (C2_amended noPageCtx s0 rfl).1

/-- C3 (amended): every successful invocation of the eight mouse/keyboard/
wait actions returns exactly one descriptive text part, then a text part
naming the captured screenshot resource, then one `"image/png"` image part;
the `screenshot` action returns only the naming text part and the image part
(its first text part doubles as the description).  By construction each
invocation returns either a content list or a single error, never both. -/
theorem C3_amended :
    (∀ ctx s s' cs, cuScreenshotTool ctx s = (s', .ok cs) →
      ∃ n b, cs = [Content.text ("Screenshot captured: " ++ n),
                   Content.image b "image/png"]) ∧
    (∀ ctx x y b s s' cs, cuClickTool ctx x y b s = (s', .ok cs) →
      ∃ d n bb, cs = [Content.text d,
                      Content.text ("Screenshot captured: " ++ n),
                      Content.image bb "image/png"]) ∧
    (∀ ctx x y s s' cs, cuDoubleClickTool ctx x y s = (s', .ok cs) →
      ∃ d n bb, cs = [Content.text d,
                      Content.text ("Screenshot captured: " ++ n),
                      Content.image bb "image/png"]) ∧
    (∀ ctx x y sx sy s s' cs, cuScrollTool ctx x y sx sy s = (s', .ok cs) →
      ∃ d n bb, cs = [Content.text d,
                      Content.text ("Screenshot captured: " ++ n),
                      Content.image bb "image/png"]) ∧
    (∀ ctx text dl s s' cs, cuTypeTool ctx text dl s = (s', .ok cs) →
      ∃ d n bb, cs = [Content.text d,
                      Content.text ("Screenshot captured: " ++ n),
                      Content.image bb "image/png"]) ∧
    (∀ ctx ms s s' cs, cuWaitTool ctx ms s = (s', .ok cs) →
      ∃ d n bb, cs = [Content.text d,
                      Content.text ("Screenshot captured: " ++ n),
                      Content.image bb "image/png"]) ∧
    (∀ ctx x y s s' cs, cuMoveTool ctx x y s = (s', .ok cs) →
      ∃ d n bb, cs = [Content.text d,
                      Content.text ("Screenshot captured: " ++ n),
                      Content.image bb "image/png"]) ∧
    (∀ ctx keys s s' cs, cuKeypressTool ctx keys s = (s', .ok cs) →
      ∃ d n bb, cs = [Content.text d,
                      Content.text ("Screenshot captured: " ++ n),
                      Content.image bb "image/png"]) ∧
    (∀ ctx path s s' cs, cuDragTool ctx path s = (s', .ok cs) →
      ∃ d n bb, cs = [Content.text d,
                      Content.text ("Screenshot captured: " ++ n),
                      Content.image bb "image/png"]) := by
  refine ⟨?_, ?_, ?_, ?_, ?_, ?_, ?_, ?_, ?_⟩
  · intro ctx s s' cs h
    obtain ⟨page, _, _, _, hcs⟩ := screenshotInv h
    exact ⟨_, _, hcs⟩
  · intro ctx x y b s s' cs h
    obtain ⟨page, btn, _, _, _, _, _, hcs⟩ := clickInv h
    exact ⟨_, _, _, hcs⟩
  · intro ctx x y s s' cs h
    obtain ⟨page, _, _, _, _, hcs⟩ := doubleClickInv h
    exact ⟨_, _, _, hcs⟩
  · intro ctx x y sx sy s s' cs h
    obtain ⟨page, _, _, _, _, _, hcs⟩ := scrollInv h
    exact ⟨_, _, _, hcs⟩
  · intro ctx text dl s s' cs h
    obtain ⟨page, _, _, _, _, hcs⟩ := typeInv h
    exact ⟨_, _, _, hcs⟩
  · intro ctx ms s s' cs h
    obtain ⟨page, _, _, _, _, hcs⟩ := waitInv h
    exact ⟨_, _, _, hcs⟩
  · intro ctx x y s s' cs h
    obtain ⟨page, _, _, _, _, hcs⟩ := moveInv h
    exact ⟨_, _, _, hcs⟩
  · intro ctx keys s s' cs h
    obtain ⟨page, _, _, _, _, hcs⟩ := keypressInv h
    exact ⟨_, _, _, hcs⟩
  · intro ctx path s s' cs h
    match path with
    | [] => unfold cuDragTool parseDragPath at h; simp at h
    | [p] => unfold cuDragTool parseDragPath at h; simp at h
    | start :: p₂ :: rest =>
      obtain ⟨page, _, _, _, _, _, _, hcs⟩ := dragInv h
      exact ⟨_, _, _, hcs⟩

/-- C3 (counterexample): a successful `screenshot` invocation returns only
two content parts — there is no separate descriptive text part in front of
the resource-naming text part and the image part, so the three-part shape
required by the claim does not hold for the screenshot action. -/
theorem C3_counterexample :
    cuScreenshotTool ctx0 s0 =
      ({ clock := [t1], trace := [Prim.screenshot],
         resources :=
           [("sess-1", "cu-screenshot-2025-01-01T00-00-00.000Z", "IMG")],
         notifications := 1 },
       .ok [Content.text
              "Screenshot captured: cu-screenshot-2025-01-01T00-00-00.000Z",
            Content.image "IMG" "image/png"]) ∧
    List.length
      [Content.text
         "Screenshot captured: cu-screenshot-2025-01-01T00-00-00.000Z",
       Content.image "IMG" "image/png"] = 2 ∧ (2 : Nat) ≠ 3 := by decide

/-- C3 (witness): the shape statement applied to a concrete successful
click invocation. -/
theorem C3_witness :
    ∃ d n bb,
      [Content.text "Clicked at (10, 20) with left",
       Content.text "Screenshot captured: cu-click-2025-01-01T00-00-00.000Z",
       Content.image "IMG" "image/png"] =
      [Content.text d, Content.text ("Screenshot captured: " ++ n),
       Content.image bb "image/png"] :=
  C3_amended.2.1 ctx0 10 20 none s0
    { clock := [t1],
      trace := [Prim.mouseClick 10 20 "left", Prim.screenshot],
      resources := [("sess-1", "cu-click-2025-01-01T00-00-00.000Z", "IMG")],
      notifications := 1 }
    [Content.text "Clicked at (10, 20) with left",
     Content.text "Screenshot captured: cu-click-2025-01-01T00-00-00.000Z",
     Content.image "IMG" "image/png"]
    (by decide)

/-- C4 (amended): when a protocol server instance is registered, every
successful screenshot registration raises the notification count by exactly
one, and a failed capture registers nothing and notifies nothing; the
notification is fire-and-forget (the source does not await it), so whether
the emission would fail never changes any action's outcome. -/
theorem C4_amended :
    (∀ ctx page pre s s' cs, ctx.hasServer = true →
      takeAndRegisterScreenshot ctx page pre s = (s', .ok cs) →
      s'.notifications = s.notifications + 1 ∧
      s'.resources = registerScreenshot ctx.currentSessionId
        (screenshotName pre (s.clock.headD "")) page.shotData s.resources) ∧
    (∀ ctx page pre s s' e,
      takeAndRegisterScreenshot ctx page pre s = (s', .error e) →
      s'.notifications = s.notifications ∧ s'.resources = s.resources) ∧
    (∀ ctx b s, cuScreenshotTool { ctx with notifyFails := b } s =
      cuScreenshotTool ctx s) ∧
    (∀ ctx b x y bt s, cuClickTool { ctx with notifyFails := b } x y bt s =
      cuClickTool ctx x y bt s) ∧
    (∀ ctx b x y s, cuDoubleClickTool { ctx with notifyFails := b } x y s =
      cuDoubleClickTool ctx x y s) ∧
    (∀ ctx b x y sx sy s,
      cuScrollTool { ctx with notifyFails := b } x y sx sy s =
      cuScrollTool ctx x y sx sy s) ∧
    (∀ ctx b text d s, cuTypeTool { ctx with notifyFails := b } text d s =
      cuTypeTool ctx text d s) ∧
    (∀ ctx b ms s, cuWaitTool { ctx with notifyFails := b } ms s =
      cuWaitTool ctx ms s) ∧
    (∀ ctx b x y s, cuMoveTool { ctx with notifyFails := b } x y s =
      cuMoveTool ctx x y s) ∧
    (∀ ctx b keys s, cuKeypressTool { ctx with notifyFails := b } keys s =
      cuKeypressTool ctx keys s) ∧
    (∀ ctx b path s, cuDragTool { ctx with notifyFails := b } path s =
      cuDragTool ctx path s) := by
  refine ⟨?_, ?_, ?_, ?_, ?_, ?_, ?_, ?_, ?_, ?_, ?_⟩
  · intro ctx page pre s s' cs hs h
    cases hf : page.failsAt Prim.screenshot with
    | some m => rw [takeShot_err ctx page pre s m hf] at h; simp at h
    | none =>
      rw [takeShot_ok ctx page pre s hf] at h
      simp only [Prod.mk.injEq, Except.ok.injEq] at h
      rw [← h.1]
      simp [hs]
  · intro ctx page pre s s' e h
    cases hf : page.failsAt Prim.screenshot with
    | some m =>
      rw [takeShot_err ctx page pre s m hf] at h
      simp only [Prod.mk.injEq, Except.error.injEq] at h
      rw [← h.1]
      exact ⟨rfl, rfl⟩
    | none => rw [takeShot_ok ctx page pre s hf] at h; simp at h
  · intro ctx b s; cases ctx; rfl
  · intro ctx b x y bt s; cases ctx; rfl
  · intro ctx b x y s; cases ctx; rfl
  · intro ctx b x y sx sy s; cases ctx; rfl
  · intro ctx b text d s; cases ctx; rfl
  · intro ctx b ms s; cases ctx; rfl
  · intro ctx b x y s; cases ctx; rfl
  · intro ctx b keys s; cases ctx; rfl
  · intro ctx b path s; cases ctx; rfl

/-- C4 (counterexample): when `getServer()` returns null, a click still
succeeds and registers its screenshot, yet zero list-changed notifications
are emitted — not exactly one per successful registration. -/
theorem C4_counterexample :
    cuClickTool noServerCtx 3 4 none s0 =
      ({ clock := [t1], trace := [Prim.mouseClick 3 4 "left", Prim.screenshot],
         resources := [("sess-1", "cu-click-2025-01-01T00-00-00.000Z", "IMG")],
         notifications := 0 },
       .ok [Content.text "Clicked at (3, 4) with left",
            Content.text "Screenshot captured: cu-click-2025-01-01T00-00-00.000Z",
            Content.image "IMG" "image/png"]) ∧
    (0 : Nat) ≠ 1 := by decide

/-- C4 (witness): the registration/notification statement exercised at a
concrete capture with a server present, and emission-failure independence at
a concrete click. -/
theorem C4_witness :
    (RunState.notifications
       { clock := [t1], trace := [Prim.screenshot],
         resources := [("sess-1", "cu-shot-2025-01-01T00-00-00.000Z", "IMG")],
         notifications := 1 } = s0.notifications + 1 ∧
     RunState.resources
       { clock := [t1], trace := [Prim.screenshot],
         resources := [("sess-1", "cu-shot-2025-01-01T00-00-00.000Z", "IMG")],
         notifications := 1 } =
       registerScreenshot ctx0.currentSessionId
         (screenshotName "cu-shot" (s0.clock.headD ""))
         allOkPage.shotData s0.resources) ∧
    cuClickTool { ctx0 with notifyFails := true } 1 2 none s0 =
      cuClickTool ctx0 1 2 none s0 :=
  ⟨C4_amended.1 ctx0 allOkPage "cu-shot" s0
     { clock := [t1], trace := [Prim.screenshot],
       resources := [("sess-1", "cu-shot-2025-01-01T00-00-00.000Z", "IMG")],
       notifications := 1 }
     [Content.text "Screenshot captured: cu-shot-2025-01-01T00-00-00.000Z",
      Content.image "IMG" "image/png"]
     rfl (by decide),
   C4_amended.2.2.2.1 ctx0 true 1 2 none s0⟩

/-- A starting state whose two queued capture timestamps fall in the same
millisecond, as `new Date().toISOString()` can yield for rapid consecutive
captures. -/
def sDup : RunState where
  clock := [t0, t0]
  trace := []
  resources := []
  notifications := 0

/-- C5 (amended): two captures with the same action-kind prefix get distinct
resource names exactly when their colon-replaced capture timestamps differ;
uniqueness therefore rests entirely on the millisecond-resolution wall-clock
strings and is not guaranteed for same-millisecond captures. -/
theorem C5_amended (pre t₁ t₂ : String) :
    screenshotName pre t₁ = screenshotName pre t₂ ↔
      replaceColons t₁ = replaceColons t₂ := by
  unfold screenshotName
  constructor
  · intro h
    have hd := congrArg String.data h
    simp only [String.data_append, List.append_assoc] at hd
    exact String.ext
      (List.append_cancel_left (List.append_cancel_left hd))
  · intro h
    rw [h]

/-- C5 (counterexample): two consecutive screenshot captures in one session
whose `Date` readings fall in the same millisecond register two resources
with identical names. -/
theorem C5_counterexample :
    (cuScreenshotTool ctx0 (cuScreenshotTool ctx0 sDup).1).1.resources.map
        (fun r => r.2.1) =
      ["cu-screenshot-2025-01-01T00-00-00.000Z",
       "cu-screenshot-2025-01-01T00-00-00.000Z"] ∧
    ¬ List.Nodup
        ((cuScreenshotTool ctx0 (cuScreenshotTool ctx0 sDup).1).1.resources.map
          (fun r => r.2.1)) := by decide

/-- C6 (confirmed): a drag path with fewer than 2 points is rejected by the
schema with no side effect; on success the primitive sequence is a move to
the first point, one `mouse.down`, a move per remaining point in path order,
one `mouse.up`, and the mandatory capture; the press and release each occur
exactly once, and the descriptive text contains the first and last point's
coordinates verbatim. -/
theorem C6_theorem :
    (∀ ctx path s, path.length < 2 →
      cuDragTool ctx path s =
        (s, .error (.validation "Array must contain at least 2 element(s)"))) ∧
    (∀ ctx start p₂ rest s s' cs,
      cuDragTool ctx (start :: p₂ :: rest) s = (s', .ok cs) →
      s'.trace = s.trace ++
        ([Prim.mouseMove start.x start.y, Prim.mouseDown] ++
         (p₂ :: rest).map (fun p => Prim.mouseMove p.x p.y) ++
         [Prim.mouseUp, Prim.screenshot]) ∧
      List.count Prim.mouseDown
        ([Prim.mouseMove start.x start.y, Prim.mouseDown] ++
         (p₂ :: rest).map (fun p => Prim.mouseMove p.x p.y) ++
         [Prim.mouseUp, Prim.screenshot]) = 1 ∧
      List.count Prim.mouseUp
        ([Prim.mouseMove start.x start.y, Prim.mouseDown] ++
         (p₂ :: rest).map (fun p => Prim.mouseMove p.x p.y) ++
         [Prim.mouseUp, Prim.screenshot]) = 1 ∧
      ∃ d tl, cs = Content.text d :: tl ∧
        containsStr d ("(" ++ toString start.x ++ ", " ++
          toString start.y ++ ")") ∧
        containsStr d ("(" ++ toString ((p₂ :: rest).getLastD start).x ++
          ", " ++ toString ((p₂ :: rest).getLastD start).y ++ ")")) := by
  constructor
  · intro ctx path s hlen
    unfold cuDragTool parseDragPath
    have hn : ¬ 2 ≤ path.length := by omega
    simp [hn]
  · intro ctx start p₂ rest s s' cs h
    obtain ⟨page, hp, h₁, h₂, h₃, h₄, hstate, hcs⟩ := dragInv h
    subst hstate
    subst hcs
    refine ⟨by simp, ?_, ?_, ?_⟩
    · have h0 : List.count Prim.mouseDown
          (rest.map (fun p => Prim.mouseMove p.x p.y)) = 0 := by
        rw [List.count_eq_zero]; simp
      simp [List.count_append, List.count_cons, h0]
    · have h0 : List.count Prim.mouseUp
          (rest.map (fun p => Prim.mouseMove p.x p.y)) = 0 := by
        rw [List.count_eq_zero]; simp
      simp [List.count_append, List.count_cons, h0]
    · refine ⟨_, _, rfl, ?_, ?_⟩
      · exact ⟨"Dragged from ",
          " to (" ++ toString ((p₂ :: rest).getLastD start).x ++ ", " ++
            toString ((p₂ :: rest).getLastD start).y ++ ") via " ++
            toString (rest.length + 1 + 1) ++ " points",
          by simp only [String.append_assoc]; rfl⟩
      · exact ⟨"Dragged from (" ++ toString start.x ++ ", " ++
            toString start.y ++ ") to ",
          " via " ++ toString (rest.length + 1 + 1) ++ " points",
          by simp only [String.append_assoc]; rfl⟩

/-- C6 (witness): the path `[(10,10)]` is rejected with the state unchanged,
and the drag `[(10,10),(50,60)]` runs move-down-move-up with one
press/release cycle and both endpoints verbatim in its description. -/
theorem C6_witness :
    cuDragTool ctx0 [⟨10, 10⟩] s0 =
      (s0, .error (.validation "Array must contain at least 2 element(s)")) ∧
    ((cuDragTool ctx0 [⟨10, 10⟩, ⟨50, 60⟩] s0).1.trace =
       s0.trace ++
         ([Prim.mouseMove 10 10, Prim.mouseDown] ++
          [(⟨50, 60⟩ : Point)].map (fun p => Prim.mouseMove p.x p.y) ++
          [Prim.mouseUp, Prim.screenshot]) ∧
     List.count Prim.mouseDown
       ([Prim.mouseMove 10 10, Prim.mouseDown] ++
        [(⟨50, 60⟩ : Point)].map (fun p => Prim.mouseMove p.x p.y) ++
        [Prim.mouseUp, Prim.screenshot]) = 1 ∧
     List.count Prim.mouseUp
       ([Prim.mouseMove 10 10, Prim.mouseDown] ++
        [(⟨50, 60⟩ : Point)].map (fun p => Prim.mouseMove p.x p.y) ++
        [Prim.mouseUp, Prim.screenshot]) = 1 ∧
     ∃ d tl,
       [Content.text "Dragged from (10, 10) to (50, 60) via 2 points",
        Content.text "Screenshot captured: cu-drag-2025-01-01T00-00-00.000Z",
        Content.image "IMG" "image/png"] = Content.text d :: tl ∧
       containsStr d ("(" ++ toString (10 : Int) ++ ", " ++
         toString (10 : Int) ++ ")") ∧
       containsStr d ("(" ++ toString (50 : Int) ++ ", " ++
         toString (60 : Int) ++ ")")) :=
  ⟨C6_theorem.1 ctx0 [⟨10, 10⟩] s0 (by decide),
   C6_theorem.2 ctx0 ⟨10, 10⟩ ⟨50, 60⟩ [] s0 _ _ (by decide)⟩

/-- C7 (confirmed): an omitted `ms` defaults to 1000; on every successful
wait the `waitForTimeout` call precedes the screenshot capture in the
primitive trace and a resource is registered; `ms = 0` is accepted and still
produces the screenshot. -/
theorem C7_theorem :
    parseWaitMs none = 1000 ∧
    (∀ ctx ms s s' cs, cuWaitTool ctx ms s = (s', .ok cs) →
      s'.trace = s.trace ++ [Prim.waitForTimeout (parseWaitMs ms),
        Prim.screenshot] ∧
      ∃ n b, s'.resources = s.resources ++ [(ctx.currentSessionId, n, b)]) ∧
    (∀ ctx page s, ctx.page = some page →
      page.failsAt (Prim.waitForTimeout 0) = none →
      page.failsAt Prim.screenshot = none →
      cuWaitTool ctx (some 0) s =
        ({ clock := s.clock.tail,
           trace := s.trace ++ [Prim.waitForTimeout 0, Prim.screenshot],
           resources := registerScreenshot ctx.currentSessionId
             (screenshotName "cu-wait" (s.clock.headD "")) page.shotData
             s.resources,
           notifications :=
             if ctx.hasServer then s.notifications + 1
             else s.notifications },
         .ok [Content.text ("Waited for " ++ toString (0 : Int) ++ " ms"),
              Content.text ("Screenshot captured: " ++
                screenshotName "cu-wait" (s.clock.headD "")),
              Content.image page.shotData "image/png"])) := by
  refine ⟨rfl, ?_, ?_⟩
  · intro ctx ms s s' cs h
    obtain ⟨page, hp, h₁, h₂, hstate, hcs⟩ := waitInv h
    subst hstate
    exact ⟨rfl, _, _, rfl⟩
  · intro ctx page s hp hf₁ hf₂
    unfold cuWaitTool cuWaitAction
    rw [hp]
    have hf₁' : page.failsAt (Prim.waitForTimeout (parseWaitMs (some 0))) =
        none := hf₁
    simp only [callPrim, hf₁']
    rw [takeShot_ok ctx page "cu-wait" _ hf₂]
    simp only [List.append_assoc]
    rfl

/-- C7 (witness): the default and the zero-delay case at concrete inputs. -/
theorem C7_witness :
    parseWaitMs none = 1000 ∧
    ((cuWaitTool ctx0 none s0).1.trace =
      s0.trace ++ [Prim.waitForTimeout (parseWaitMs none), Prim.screenshot] ∧
     ∃ n b, (cuWaitTool ctx0 none s0).1.resources =
       s0.resources ++ [(ctx0.currentSessionId, n, b)]) ∧
    cuWaitTool ctx0 (some 0) s0 =
      ({ clock := s0.clock.tail,
         trace := s0.trace ++ [Prim.waitForTimeout 0, Prim.screenshot],
         resources := registerScreenshot ctx0.currentSessionId
           (screenshotName "cu-wait" (s0.clock.headD "")) allOkPage.shotData
           s0.resources,
         notifications :=
           if ctx0.hasServer then s0.notifications + 1
           else s0.notifications },
       .ok [Content.text ("Waited for " ++ toString (0 : Int) ++ " ms"),
            Content.text ("Screenshot captured: " ++
              screenshotName "cu-wait" (s0.clock.headD "")),
            Content.image allOkPage.shotData "image/png"]) :=
  ⟨C7_theorem.1,
   C7_theorem.2.1 ctx0 none s0 _
     [Content.text "Waited for 1000 ms",
      Content.text "Screenshot captured: cu-wait-2025-01-01T00-00-00.000Z",
      Content.image "IMG" "image/png"] (by decide),
   C7_theorem.2.2 ctx0 allOkPage s0 rfl rfl rfl⟩

/-- C8 (confirmed): the click button argument defaults to `"left"` when
omitted, an explicit button is accepted unchanged exactly when it is one of
left, right or middle, and every successful click's first content part is a
text that carries the exact coordinates and the button used. -/
theorem C8_theorem :
    parseButton none = .ok "left" ∧
    (∀ b, parseButton (some b) = .ok b ↔
      (b = "left" ∨ b = "right" ∨ b = "middle")) ∧
    (∀ b r, parseButton (some b) = .ok r → r = b) ∧
    (∀ ctx x y b s s' cs, cuClickTool ctx x y b s = (s', .ok cs) →
      ∃ btn d tl, parseButton b = .ok btn ∧
        cs = Content.text d :: tl ∧
        d = "Clicked at (" ++ toString x ++ ", " ++ toString y ++
          ") with " ++ btn ∧
        containsStr d ("(" ++ toString x ++ ", " ++ toString y ++ ")") ∧
        containsStr d btn) := by
  refine ⟨rfl, ?_, ?_, ?_⟩
  · intro b
    constructor
    · intro h
      by_contra hc
      have h' : (if b = "left" ∨ b = "right" ∨ b = "middle" then
          (Except.ok b : Except CuError String)
        else .error (.validation "Invalid enum value")) = .ok b := h
      rw [if_neg hc] at h'
      exact Except.noConfusion h'
    · intro h
      show (if b = "left" ∨ b = "right" ∨ b = "middle" then
          (Except.ok b : Except CuError String)
        else .error (.validation "Invalid enum value")) = .ok b
      rw [if_pos h]
  · intro b r h
    have h' : (if b = "left" ∨ b = "right" ∨ b = "middle" then
        (Except.ok b : Except CuError String)
      else .error (.validation "Invalid enum value")) = .ok r := h
    by_cases hc : b = "left" ∨ b = "right" ∨ b = "middle"
    · rw [if_pos hc] at h'
      cases h'
      rfl
    · rw [if_neg hc] at h'
      exact Except.noConfusion h'
  · intro ctx x y b s s' cs h
    obtain ⟨page, btn, hp, hb, h₁, h₂, hstate, hcs⟩ := clickInv h
    subst hcs
    refine ⟨btn, _, _, hb, rfl, rfl, ?_, ?_⟩
    · exact ⟨"Clicked at ", " with " ++ btn,
        by simp only [String.append_assoc]; rfl⟩
    · exact ⟨"Clicked at (" ++ toString x ++ ", " ++ toString y ++ ") with ",
        "", by simp only [String.append_assoc, String.append_empty]⟩

/-- C8 (witness): a concrete click with the button omitted. -/
theorem C8_witness :
    ∃ btn d tl, parseButton none = .ok btn ∧
      [Content.text "Clicked at (10, 20) with left",
       Content.text "Screenshot captured: cu-click-2025-01-01T00-00-00.000Z",
       Content.image "IMG" "image/png"] = Content.text d :: tl ∧
      d = "Clicked at (" ++ toString (10 : Int) ++ ", " ++
        toString (20 : Int) ++ ") with " ++ btn ∧
      containsStr d ("(" ++ toString (10 : Int) ++ ", " ++
        toString (20 : Int) ++ ")") ∧
      containsStr d btn :=
  C8_theorem.2.2.2 ctx0 10 20 none s0
    { clock := [t1],
      trace := [Prim.mouseClick 10 20 "left", Prim.screenshot],
      resources := [("sess-1", "cu-click-2025-01-01T00-00-00.000Z", "IMG")],
      notifications := 1 }
    [Content.text "Clicked at (10, 20) with left",
     Content.text "Screenshot captured: cu-click-2025-01-01T00-00-00.000Z",
     Content.image "IMG" "image/png"]
    (by decide)

/-- C9 (confirmed): an empty keypress list is rejected by the schema with no
side effect, and on success each key is pressed by one `keyboard.press` call
per list element, sequentially in list order, before the capture. -/
theorem C9_theorem :
    (∀ ctx s, cuKeypressTool ctx [] s =
      (s, .error (.validation "Array must contain at least 1 element(s)"))) ∧
    (∀ ctx keys s s' cs, cuKeypressTool ctx keys s = (s', .ok cs) →
      1 ≤ keys.length ∧
      s'.trace = s.trace ++ keys.map Prim.keyboardPress ++
        [Prim.screenshot]) := by
  constructor
  · intro ctx s
    unfold cuKeypressTool parseKeys
    simp
  · intro ctx keys s s' cs h
    obtain ⟨page, hp, hlen, hf, hstate, hcs⟩ := keypressInv h
    subst hstate
    exact ⟨hlen, rfl⟩

/-- C9 (witness): the empty list is rejected at a concrete state, and a
concrete two-key invocation presses the keys in order. -/
theorem C9_witness :
    cuKeypressTool ctx0 [] s0 =
      (s0, .error (.validation "Array must contain at least 1 element(s)")) ∧
    (1 ≤ (["Shift+Tab", "Enter"] : List String).length ∧
     (cuKeypressTool ctx0 ["Shift+Tab", "Enter"] s0).1.trace =
       s0.trace ++ (["Shift+Tab", "Enter"] : List String).map
         Prim.keyboardPress ++ [Prim.screenshot]) :=
  ⟨C9_theorem.1 ctx0 s0,
   C9_theorem.2 ctx0 ["Shift+Tab", "Enter"] s0 _
     [Content.text "Pressed keys: Shift+Tab, Enter",
      Content.text "Screenshot captured: cu-keypress-2025-01-01T00-00-00.000Z",
      Content.image "IMG" "image/png"] (by decide)⟩

/-- C10 (confirmed): when `context.getServer()` returns null, a successful
invocation of any action still captures and registers the screenshot under
the current session id and returns the full content list, while the
notification count stays unchanged — no list-changed notification is
emitted at all. -/
theorem C10_theorem :
    (∀ ctx s s' cs, ctx.hasServer = false →
      cuScreenshotTool ctx s = (s', .ok cs) →
      s'.notifications = s.notifications ∧
      (∃ n b, s'.resources = s.resources ++ [(ctx.currentSessionId, n, b)]) ∧
      cs.length = 2) ∧
    (∀ ctx x y b s s' cs, ctx.hasServer = false →
      cuClickTool ctx x y b s = (s', .ok cs) →
      s'.notifications = s.notifications ∧
      (∃ n bb, s'.resources = s.resources ++ [(ctx.currentSessionId, n, bb)]) ∧
      cs.length = 3) ∧
    (∀ ctx x y s s' cs, ctx.hasServer = false →
      cuDoubleClickTool ctx x y s = (s', .ok cs) →
      s'.notifications = s.notifications ∧
      (∃ n bb, s'.resources = s.resources ++ [(ctx.currentSessionId, n, bb)]) ∧
      cs.length = 3) ∧
    (∀ ctx x y sx sy s s' cs, ctx.hasServer = false →
      cuScrollTool ctx x y sx sy s = (s', .ok cs) →
      s'.notifications = s.notifications ∧
      (∃ n bb, s'.resources = s.resources ++ [(ctx.currentSessionId, n, bb)]) ∧
      cs.length = 3) ∧
    (∀ ctx text d s s' cs, ctx.hasServer = false →
      cuTypeTool ctx text d s = (s', .ok cs) →
      s'.notifications = s.notifications ∧
      (∃ n bb, s'.resources = s.resources ++ [(ctx.currentSessionId, n, bb)]) ∧
      cs.length = 3) ∧
    (∀ ctx ms s s' cs, ctx.hasServer = false →
      cuWaitTool ctx ms s = (s', .ok cs) →
      s'.notifications = s.notifications ∧
      (∃ n bb, s'.resources = s.resources ++ [(ctx.currentSessionId, n, bb)]) ∧
      cs.length = 3) ∧
    (∀ ctx x y s s' cs, ctx.hasServer = false →
      cuMoveTool ctx x y s = (s', .ok cs) →
      s'.notifications = s.notifications ∧
      (∃ n bb, s'.resources = s.resources ++ [(ctx.currentSessionId, n, bb)]) ∧
      cs.length = 3) ∧
    (∀ ctx keys s s' cs, ctx.hasServer = false →
      cuKeypressTool ctx keys s = (s', .ok cs) →
      s'.notifications = s.notifications ∧
      (∃ n bb, s'.resources = s.resources ++ [(ctx.currentSessionId, n, bb)]) ∧
      cs.length = 3) ∧
    (∀ ctx path s s' cs, ctx.hasServer = false →
      cuDragTool ctx path s = (s', .ok cs) →
      s'.notifications = s.notifications ∧
      (∃ n bb, s'.resources = s.resources ++ [(ctx.currentSessionId, n, bb)]) ∧
      cs.length = 3) := by
  refine ⟨?_, ?_, ?_, ?_, ?_, ?_, ?_, ?_, ?_⟩
  · intro ctx s s' cs hs h
    obtain ⟨page, hp, hf, hstate, hcs⟩ := screenshotInv h
    subst hstate; subst hcs
    exact ⟨by simp [hs], ⟨_, _, rfl⟩, by simp⟩
  · intro ctx x y b s s' cs hs h
    obtain ⟨page, btn, hp, hb, h₁, h₂, hstate, hcs⟩ := clickInv h
    subst hstate; subst hcs
    exact ⟨by simp [hs], ⟨_, _, rfl⟩, by simp⟩
  · intro ctx x y s s' cs hs h
    obtain ⟨page, hp, h₁, h₂, hstate, hcs⟩ := doubleClickInv h
    subst hstate; subst hcs
    exact ⟨by simp [hs], ⟨_, _, rfl⟩, by simp⟩
  · intro ctx x y sx sy s s' cs hs h
    obtain ⟨page, hp, h₁, h₂, h₃, hstate, hcs⟩ := scrollInv h
    subst hstate; subst hcs
    exact ⟨by simp [hs], ⟨_, _, rfl⟩, by simp⟩
  · intro ctx text d s s' cs hs h
    obtain ⟨page, hp, h₁, h₂, hstate, hcs⟩ := typeInv h
    subst hstate; subst hcs
    exact ⟨by simp [hs], ⟨_, _, rfl⟩, by simp⟩
  · intro ctx ms s s' cs hs h
    obtain ⟨page, hp, h₁, h₂, hstate, hcs⟩ := waitInv h
    subst hstate; subst hcs
    exact ⟨by simp [hs], ⟨_, _, rfl⟩, by simp⟩
  · intro ctx x y s s' cs hs h
    obtain ⟨page, hp, h₁, h₂, hstate, hcs⟩ := moveInv h
    subst hstate; subst hcs
    exact ⟨by simp [hs], ⟨_, _, rfl⟩, by simp⟩
  · intro ctx keys s s' cs hs h
    obtain ⟨page, hp, hlen, hf, hstate, hcs⟩ := keypressInv h
    subst hstate; subst hcs
    exact ⟨by simp [hs], ⟨_, _, rfl⟩, by simp⟩
  · intro ctx path s s' cs hs h
    match path with
    | [] => unfold cuDragTool parseDragPath at h; simp at h
    | [p] => unfold cuDragTool parseDragPath at h; simp at h
    | start :: p₂ :: rest =>
      obtain ⟨page, hp, h₁, h₂, h₃, h₄, hstate, hcs⟩ := dragInv h
      subst hstate; subst hcs
      exact ⟨by simp [hs], ⟨_, _, rfl⟩, by simp⟩

/-- C10 (witness): a concrete no-server screenshot invocation registers the
resource under the current session id and emits nothing. -/
theorem C10_witness :
    (RunState.notifications
      { clock := [t1], trace := [Prim.screenshot],
        resources :=
          [("sess-1", "cu-screenshot-2025-01-01T00-00-00.000Z", "IMG")],
        notifications := 0 }) = s0.notifications ∧
    (∃ n b, RunState.resources
      { clock := [t1], trace := [Prim.screenshot],
        resources :=
          [("sess-1", "cu-screenshot-2025-01-01T00-00-00.000Z", "IMG")],
        notifications := 0 } =
      s0.resources ++ [(noServerCtx.currentSessionId, n, b)]) ∧
    List.length
      [Content.text
         "Screenshot captured: cu-screenshot-2025-01-01T00-00-00.000Z",
       Content.image "IMG" "image/png"] = 2 :=
  C10_theorem.1 noServerCtx s0
    { clock := [t1], trace := [Prim.screenshot],
      resources :=
        [("sess-1", "cu-screenshot-2025-01-01T00-00-00.000Z", "IMG")],
      notifications := 0 }
    [Content.text
       "Screenshot captured: cu-screenshot-2025-01-01T00-00-00.000Z",
     Content.image "IMG" "image/png"]
    rfl (by decide)
